import Mathlib

/-!
Verification development for the ASCII FX frame-processing and export
pipeline.  The definitions below are a shallow embedding of the
functions in `src/App.tsx`: pure numeric code becomes Lean functions
over `ℝ` (JavaScript numbers) or `ℚ`/`ℕ` where the code only ever
handles rationals/integers; canvas drawing becomes a list of draw
commands; the stateful export jobs become explicit state-passing
functions.  Each definition carries a comment naming the source
function and lines it embeds.
-/

set_option maxHeartbeats 1000000

/-- The five density sets of `DENSITY_SETS` (App.tsx lines 69-75). -/
inductive DensityKey where
  | standard
  | complex
  | blocks
  | matrix
  | minimal
deriving DecidableEq, Repr

/-- Glyph string of each density set, exactly as in `DENSITY_SETS`
(App.tsx lines 69-75). -/
def densityString : DensityKey → String
  | .standard => " .:-=+*#%@"
  | .complex => " .'`^\",:;Il!i~+_-?][\x7d\x7b1)(|\\/tfjrxnuvczXYUJCLQ0OZmwqpdbkhao*#MW&8%B@$"
  | .blocks => " ░▒▓█"
  | .matrix => " 01"
  | .minimal => " /\\"

/-- `density.length` for a density set (App.tsx lines 168, 229). -/
def densityLen (k : DensityKey) : ℕ := (densityString k).length

/-- The color modes of the settings object (App.tsx line 92). -/
inductive ColorMode where
  | original
  | white
  | matrix
  | custom
deriving DecidableEq, Repr

/-- The settings record passed to the pipeline (shape of
`DEFAULT_SETTINGS`, App.tsx lines 85-97).  `fontSize` is a natural
number: the UI slider ranges over the integers 8..32 with step 1.
Tone values are JavaScript numbers, modelled as reals. -/
structure Settings where
  fontSize : ℕ
  fontFamily : String
  contrast : ℝ
  brightness : ℝ
  saturation : ℝ
  gamma : ℝ
  colorMode : ColorMode
  customColor : String
  density : DensityKey
  invert : Bool
  backgroundColor : String

/-- Final clamp `Math.max(0, Math.min(255, x))` applied to every
channel (App.tsx lines 127-131). -/
noncomputable def clamp255 (x : ℝ) : ℝ := max 0 (min 255 x)

/-- `clamp255` applied to each channel of a triple (App.tsx lines
127-131). -/
noncomputable def clamp3 (p : ℝ × ℝ × ℝ) : ℝ × ℝ × ℝ :=
  (clamp255 p.1, clamp255 p.2.1, clamp255 p.2.2)

/-- Luminance weights `0.2126*r + 0.7152*g + 0.0722*b` (App.tsx lines
116, 182, 237). -/
noncomputable def luma (r g b : ℝ) : ℝ := 0.2126 * r + 0.7152 * g + 0.0722 * b

/-- Brightness block of `preprocessPixel` (App.tsx lines 105-109): the
step is skipped when the parameter is exactly 1.0. -/
noncomputable def brightnessPass (s : Settings) (p : ℝ × ℝ × ℝ) : ℝ × ℝ × ℝ :=
  if s.brightness ≠ 1 then
    (p.1 * s.brightness, p.2.1 * s.brightness, p.2.2 * s.brightness)
  else p

/-- Contrast block of `preprocessPixel` (App.tsx lines 110-114). -/
noncomputable def contrastPass (s : Settings) (p : ℝ × ℝ × ℝ) : ℝ × ℝ × ℝ :=
  if s.contrast ≠ 1 then
    ((p.1 - 128) * s.contrast + 128, (p.2.1 - 128) * s.contrast + 128,
      (p.2.2 - 128) * s.contrast + 128)
  else p

/-- Saturation block of `preprocessPixel` (App.tsx lines 115-120). -/
noncomputable def saturationPass (s : Settings) (p : ℝ × ℝ × ℝ) : ℝ × ℝ × ℝ :=
  if s.saturation ≠ 1 then
    (luma p.1 p.2.1 p.2.2 + (p.1 - luma p.1 p.2.1 p.2.2) * s.saturation,
     luma p.1 p.2.1 p.2.2 + (p.2.1 - luma p.1 p.2.1 p.2.2) * s.saturation,
     luma p.1 p.2.1 p.2.2 + (p.2.2 - luma p.1 p.2.1 p.2.2) * s.saturation)
  else p

/-- Gamma block of `preprocessPixel` (App.tsx lines 121-126): note the
code only clamps below with `Math.max(0, ·)` before the power. -/
noncomputable def gammaPass (s : Settings) (p : ℝ × ℝ × ℝ) : ℝ × ℝ × ℝ :=
  if s.gamma ≠ 1 then
    (255 * (max 0 p.1 / 255) ^ (1 / s.gamma),
     255 * (max 0 p.2.1 / 255) ^ (1 / s.gamma),
     255 * (max 0 p.2.2 / 255) ^ (1 / s.gamma))
  else p

/-- `preprocessPixel` (App.tsx lines 101-132): the four sequential
mutation blocks followed by the final per-channel clamp. -/
noncomputable def preprocessPixel (s : Settings) (r g b : ℝ) : ℝ × ℝ × ℝ :=
  clamp3 (gammaPass s (saturationPass s (contrastPass s (brightnessPass s (r, g, b)))))

/- Spec-side pipeline (modelled from the words of spec §4.1): every
step is applied unconditionally, and the gamma step uses
`clamp(channel,0,255)` as written in the spec, not the lower-only
clamp of the code. -/

/-- Spec §4.1 brightness scale, applied unconditionally. -/
noncomputable def stepBrightness (s : Settings) (p : ℝ × ℝ × ℝ) : ℝ × ℝ × ℝ :=
  (p.1 * s.brightness, p.2.1 * s.brightness, p.2.2 * s.brightness)

/-- Spec §4.1 contrast around mid-gray 128, applied unconditionally. -/
noncomputable def stepContrast (s : Settings) (p : ℝ × ℝ × ℝ) : ℝ × ℝ × ℝ :=
  ((p.1 - 128) * s.contrast + 128, (p.2.1 - 128) * s.contrast + 128,
    (p.2.2 - 128) * s.contrast + 128)

/-- Spec §4.1 saturation blend toward the 0.2126/0.7152/0.0722 luma,
applied unconditionally. -/
noncomputable def stepSaturation (s : Settings) (p : ℝ × ℝ × ℝ) : ℝ × ℝ × ℝ :=
  (luma p.1 p.2.1 p.2.2 + (p.1 - luma p.1 p.2.1 p.2.2) * s.saturation,
   luma p.1 p.2.1 p.2.2 + (p.2.1 - luma p.1 p.2.1 p.2.2) * s.saturation,
   luma p.1 p.2.1 p.2.2 + (p.2.2 - luma p.1 p.2.1 p.2.2) * s.saturation)

/-- Spec §4.1 gamma `255 * (clamp(channel,0,255)/255) ^ (1/gamma)`,
applied unconditionally. -/
noncomputable def stepGamma (s : Settings) (p : ℝ × ℝ × ℝ) : ℝ × ℝ × ℝ :=
  (255 * (clamp255 p.1 / 255) ^ (1 / s.gamma),
   255 * (clamp255 p.2.1 / 255) ^ (1 / s.gamma),
   255 * (clamp255 p.2.2 / 255) ^ (1 / s.gamma))

/-- The spec §4.1 pipeline: brightness, contrast, saturation, gamma in
order, each applied unconditionally, then the final clamp. -/
noncomputable def specAdjust (s : Settings) (r g b : ℝ) : ℝ × ℝ × ℝ :=
  clamp3 (stepGamma s (stepSaturation s (stepContrast s (stepBrightness s (r, g, b)))))

lemma clamp255_nonneg (x : ℝ) : 0 ≤ clamp255 x := le_max_left _ _

lemma clamp255_le (x : ℝ) : clamp255 x ≤ 255 :=
  max_le (by norm_num) (min_le_left _ _)

lemma clamp255_of_mem {x : ℝ} (h0 : 0 ≤ x) (h255 : x ≤ 255) : clamp255 x = x := by
  unfold clamp255
  rw [min_eq_right h255, max_eq_right h0]

lemma clamp255_idem (x : ℝ) : clamp255 (clamp255 x) = clamp255 x :=
  clamp255_of_mem (clamp255_nonneg x) (clamp255_le x)

lemma brightnessPass_eq (s : Settings) (p : ℝ × ℝ × ℝ) :
    brightnessPass s p = stepBrightness s p := by
  unfold brightnessPass stepBrightness
  split_ifs with h
  · rfl
  · push_neg at h
    simp [h]

lemma contrastPass_eq (s : Settings) (p : ℝ × ℝ × ℝ) :
    contrastPass s p = stepContrast s p := by
  unfold contrastPass stepContrast
  split_ifs with h
  · rfl
  · push_neg at h
    simp only [h]
    refine Prod.ext (by ring) (Prod.ext (by ring) (by ring))

lemma saturationPass_eq (s : Settings) (p : ℝ × ℝ × ℝ) :
    saturationPass s p = stepSaturation s p := by
  unfold saturationPass stepSaturation
  split_ifs with h
  · rfl
  · push_neg at h
    simp only [h]
    refine Prod.ext (by ring) (Prod.ext (by ring) (by ring))

/-- One channel of the gamma block: for positive gamma the lower-only
clamp of the code and the two-sided clamp of the spec agree after the
final clamp. -/
lemma gamma_channel_eq {γ : ℝ} (hγ : 0 < γ) (x : ℝ) :
    clamp255 (255 * (max 0 x / 255) ^ (1 / γ)) =
      clamp255 (255 * (clamp255 x / 255) ^ (1 / γ)) := by
  rcases le_or_lt x 255 with h | h
  · have hcl : clamp255 x = max 0 x := by
      unfold clamp255
      rw [min_eq_right h]
    rw [hcl]
  · have h0 : max 0 x = x := max_eq_right (by linarith)
    have hcl : clamp255 x = 255 := by
      unfold clamp255
      rw [min_eq_left h.le, max_eq_right (by norm_num)]
    rw [h0, hcl]
    have hx1 : (1 : ℝ) ≤ x / 255 := by
      rw [le_div_iff₀ (by norm_num : (0:ℝ) < 255)]
      linarith
    have hpow : (1 : ℝ) ≤ (x / 255) ^ (1 / γ) :=
      Real.one_le_rpow hx1 (by positivity)
    have harg : (255 : ℝ) ≤ 255 * (x / 255) ^ (1 / γ) := by nlinarith
    have hlhs : clamp255 (255 * (x / 255) ^ (1 / γ)) = 255 := by
      unfold clamp255
      rw [min_eq_left harg, max_eq_right (by norm_num)]
    have hrhs : (255 : ℝ) * (255 / 255 : ℝ) ^ (1 / γ) = 255 := by
      rw [div_self (by norm_num : (255:ℝ) ≠ 0), Real.one_rpow, mul_one]
    rw [hlhs, hrhs]
    unfold clamp255
    rw [min_eq_right (by norm_num), max_eq_right (by norm_num)]

lemma clamp3_gammaPass_eq {s : Settings} (hγ : 0 < s.gamma) (p : ℝ × ℝ × ℝ) :
    clamp3 (gammaPass s p) = clamp3 (stepGamma s p) := by
  unfold gammaPass stepGamma clamp3
  split_ifs with h
  · exact Prod.ext (gamma_channel_eq hγ p.1)
      (Prod.ext (gamma_channel_eq hγ p.2.1) (gamma_channel_eq hγ p.2.2))
  · push_neg at h
    have hch : ∀ x : ℝ, clamp255 x = clamp255 (255 * (clamp255 x / 255) ^ (1 / s.gamma)) := by
      intro x
      rw [h]
      norm_num
      rw [mul_div_cancel₀ _ (by norm_num : (255:ℝ) ≠ 0), clamp255_idem]
    exact Prod.ext (hch p.1) (Prod.ext (hch p.2.1) (hch p.2.2))

/-- C5: for every input triple and every tone snapshot with positive
gamma, `preprocessPixel` equals the spec pipeline (brightness, then
contrast around 128, then saturation blend toward the luma, then gamma
`255 * (clamp(channel,0,255)/255) ^ (1/gamma)`, then a final clamp) —
so skipping a step whose parameter is 1.0 is semantically identical to
applying it — and every output channel lies in [0,255]. -/
theorem preprocess_pipeline_order_and_range (s : Settings) (r g b : ℝ)
    (hγ : 0 < s.gamma) :
    preprocessPixel s r g b = specAdjust s r g b ∧
    0 ≤ (preprocessPixel s r g b).1 ∧ (preprocessPixel s r g b).1 ≤ 255 ∧
    0 ≤ (preprocessPixel s r g b).2.1 ∧ (preprocessPixel s r g b).2.1 ≤ 255 ∧
    0 ≤ (preprocessPixel s r g b).2.2 ∧ (preprocessPixel s r g b).2.2 ≤ 255 := by
  have hpipe : preprocessPixel s r g b = specAdjust s r g b := by
    unfold preprocessPixel specAdjust
    rw [brightnessPass_eq, contrastPass_eq, saturationPass_eq, clamp3_gammaPass_eq hγ]
  refine ⟨hpipe, ?_, ?_, ?_, ?_, ?_, ?_⟩ <;>
    simp only [preprocessPixel, clamp3] <;>
    first
      | exact clamp255_nonneg _
      | exact clamp255_le _

/-- Witness for `preprocess_pipeline_order_and_range` at a concrete
settings snapshot and pixel. -/
theorem preprocess_pipeline_order_and_range_witness :
    letI s : Settings :=
      { fontSize := 16, fontFamily := "Menlo", contrast := 2, brightness := 2,
        saturation := 2, gamma := 2, colorMode := .original,
        customColor := "#22d3ee", density := .standard, invert := false,
        backgroundColor := "#000000" }
    (0 : ℝ) < s.gamma ∧
      (preprocessPixel s 10 20 30 = specAdjust s 10 20 30 ∧
       0 ≤ (preprocessPixel s 10 20 30).1 ∧ (preprocessPixel s 10 20 30).1 ≤ 255 ∧
       0 ≤ (preprocessPixel s 10 20 30).2.1 ∧ (preprocessPixel s 10 20 30).2.1 ≤ 255 ∧
       0 ≤ (preprocessPixel s 10 20 30).2.2 ∧ (preprocessPixel s 10 20 30).2.2 ≤ 255) :=
  ⟨by norm_num, preprocess_pipeline_order_and_range _ 10 20 30 (by norm_num)⟩

/-- C6: with all four tone parameters at the neutral value 1.0, every
block of `preprocessPixel` is skipped and the final clamp is the
identity on channels already in [0,255], so the whole transform is the
identity. -/
theorem preprocess_neutral_identity (s : Settings) (r g b : ℝ)
    (hb : s.brightness = 1) (hc : s.contrast = 1) (hs : s.saturation = 1)
    (hg : s.gamma = 1)
    (hr0 : 0 ≤ r) (hr1 : r ≤ 255) (hg0 : 0 ≤ g) (hg1 : g ≤ 255)
    (hb0 : 0 ≤ b) (hb1 : b ≤ 255) :
    preprocessPixel s r g b = (r, g, b) := by
  unfold preprocessPixel brightnessPass contrastPass saturationPass gammaPass clamp3
  rw [if_neg (by simp [hg]), if_neg (by simp [hs]), if_neg (by simp [hc]),
    if_neg (by simp [hb])]
  simp only
  rw [clamp255_of_mem hr0 hr1, clamp255_of_mem hg0 hg1, clamp255_of_mem hb0 hb1]

/-- Witness for `preprocess_neutral_identity` at a concrete neutral
snapshot and pixel. -/
theorem preprocess_neutral_identity_witness :
    letI s : Settings :=
      { fontSize := 16, fontFamily := "Menlo", contrast := 1, brightness := 1,
        saturation := 1, gamma := 1, colorMode := .original,
        customColor := "#22d3ee", density := .standard, invert := false,
        backgroundColor := "#000000" }
    preprocessPixel s 12 34 56 = (12, 34, 56) :=
  preprocess_neutral_identity _ 12 34 56 rfl rfl rfl rfl (by norm_num)
    (by norm_num) (by norm_num) (by norm_num) (by norm_num) (by norm_num)

/-- Glyph index computation of `drawAsciiFrame` and `getAsciiString`
(App.tsx lines 184-186 and 238-240):
`charIndex = Math.floor((avg/255)*len)`, then
`if (invert) charIndex = len - 1 - charIndex`, then
`charIndex = Math.max(0, Math.min(len-1, charIndex))`. -/
noncomputable def glyphIndex (invert : Bool) (len : ℕ) (avg : ℝ) : ℤ :=
  let raw := ⌊avg / 255 * len⌋
  let inv := if invert then (len : ℤ) - 1 - raw else raw
  max 0 (min ((len : ℤ) - 1) inv)

/-- C4: for every density set and every luminance in [0,255], the
glyph index computed with invert on equals `len - 1` minus the index
computed with invert off, and for either invert flag the final index
lies in [0, len-1]. -/
theorem glyph_index_invert_symmetry (k : DensityKey) (inv : Bool) (L : ℝ)
    (h0 : 0 ≤ L) (h255 : L ≤ 255) :
    glyphIndex true (densityLen k) L =
      ((densityLen k : ℤ) - 1) - glyphIndex false (densityLen k) L ∧
    0 ≤ glyphIndex inv (densityLen k) L ∧
    glyphIndex inv (densityLen k) L ≤ (densityLen k : ℤ) - 1 := by
  have hlen : 1 ≤ (densityLen k : ℤ) := by cases k <;> decide
  have hf0 : 0 ≤ ⌊L / 255 * (densityLen k : ℝ)⌋ :=
    Int.floor_nonneg.mpr (by positivity)
  have hfn : ⌊L / 255 * (densityLen k : ℝ)⌋ ≤ (densityLen k : ℤ) := by
    have hle : L / 255 * (densityLen k : ℝ) ≤ (densityLen k : ℝ) := by
      have h1 : L / 255 ≤ 1 := by
        rw [div_le_one (by norm_num : (0:ℝ) < 255)]
        exact h255
      nlinarith [Nat.cast_nonneg (α := ℝ) (densityLen k)]
    calc ⌊L / 255 * (densityLen k : ℝ)⌋ ≤ ⌊(densityLen k : ℝ)⌋ :=
          Int.floor_le_floor hle
      _ = (densityLen k : ℤ) := Int.floor_natCast _
  simp only [glyphIndex]
  cases inv <;> simp only [if_true, if_false, Bool.false_eq_true] <;> omega

/-- Witness for `glyph_index_invert_symmetry` at the standard set and
luminance 255. -/
theorem glyph_index_invert_symmetry_witness :
    (0 : ℝ) ≤ 255 ∧ (255 : ℝ) ≤ 255 ∧
    (glyphIndex true (densityLen .standard) 255 =
        ((densityLen .standard : ℤ) - 1) -
          glyphIndex false (densityLen .standard) 255 ∧
      0 ≤ glyphIndex false (densityLen .standard) 255 ∧
      glyphIndex false (densityLen .standard) 255 ≤
        (densityLen .standard : ℤ) - 1) :=
  ⟨by norm_num, by norm_num,
    glyph_index_invert_symmetry .standard false 255 (by norm_num) (by norm_num)⟩

/-- The glyph selected for one grid cell (App.tsx lines 181-188,
236-243): preprocess the sampled pixel, take the luminance, compute
the clamped glyph index, and look it up in the density string.  The
`pixels` argument models the downsampled frame read back from the
hidden canvas (one pixel per grid cell). -/
noncomputable def cellChar (s : Settings) (pixels : ℕ → ℕ → ℝ × ℝ × ℝ)
    (x y : ℕ) : Char :=
  let p := preprocessPixel s (pixels x y).1 (pixels x y).2.1 (pixels x y).2.2
  let avg := luma p.1 p.2.1 p.2.2
  let ci := glyphIndex s.invert (densityLen s.density) avg
  (densityString s.density).toList.getD ci.toNat ' '

/-- Fill style chosen for a cell (App.tsx lines 170-197). -/
inductive FillStyle where
  | rgb (r g b : ℝ)
  | hex (c : String)
  | matrixGreen (alpha : ℝ)

/-- Per-cell fill style (App.tsx lines 170-197): original mode uses
the adjusted RGB, white and custom are static, matrix modulates a
fixed green by `avg/255`. -/
noncomputable def cellFill (s : Settings) (pixels : ℕ → ℕ → ℝ × ℝ × ℝ)
    (x y : ℕ) : FillStyle :=
  let p := preprocessPixel s (pixels x y).1 (pixels x y).2.1 (pixels x y).2.2
  let avg := luma p.1 p.2.1 p.2.2
  match s.colorMode with
  | .original => .rgb p.1 p.2.1 p.2.2
  | .white => .hex "#ffffff"
  | .custom => .hex s.customColor
  | .matrix => .matrixGreen (avg / 255)

/-- One `ctx.fillText` call (App.tsx line 199). -/
inductive DrawOp where
  | fillText (c : Char) (x y : ℕ) (fill : FillStyle)

/-- `drawAsciiFrame` (App.tsx lines 134-202), modelled as the list of
`fillText` commands it issues.  `cols = Math.floor(width/charSize)`,
`rows = Math.floor(height/charSize)`; if either is ≤ 0 the function
returns before drawing anything (line 147). -/
noncomputable def drawAsciiFrame (pixels : ℕ → ℕ → ℝ × ℝ × ℝ)
    (width height : ℕ) (s : Settings) : List DrawOp :=
  let cols := width / s.fontSize
  let rows := height / s.fontSize
  if cols = 0 ∨ rows = 0 then []
  else
    (List.range rows).flatMap fun y =>
      (List.range cols).map fun x =>
        DrawOp.fillText (cellChar s pixels x y) (x * s.fontSize) (y * s.fontSize)
          (cellFill s pixels x y)

/-- `getAsciiString` (App.tsx lines 204-248): same grid walk, but each
glyph is emitted twice and every row ends with a newline; empty string
when the grid is empty (line 216). -/
noncomputable def getAsciiString (pixels : ℕ → ℕ → ℝ × ℝ × ℝ)
    (width height : ℕ) (s : Settings) : String :=
  let cols := width / s.fontSize
  let rows := height / s.fontSize
  if cols = 0 ∨ rows = 0 then ""
  else
    String.mk ((List.range rows).flatMap fun y =>
      ((List.range cols).flatMap fun x =>
        [cellChar s pixels x y, cellChar s pixels x y]) ++ ['\n'])

/-- The recurring preview render path `renderFrame` (App.tsx lines
394-441): when the media element reports zero dimensions it skips and
reschedules; otherwise it snaps to the character grid with
`cols = Math.max(1, Math.floor(width/charSize))` (likewise rows) and
calls `drawAsciiFrame` with the snapped dimensions. -/
noncomputable def renderFrameDraw (pixels : ℕ → ℕ → ℝ × ℝ × ℝ)
    (width height : ℕ) (s : Settings) : List DrawOp :=
  if width = 0 ∨ height = 0 then []
  else
    let cols := max 1 (width / s.fontSize)
    let rows := max 1 (height / s.fontSize)
    drawAsciiFrame pixels (cols * s.fontSize) (rows * s.fontSize) s

/-- C2 counterexample: a 10×10 source with cell size 16 has
`floor(width/cell) = 0`, yet the recurring preview render path draws a
glyph: `renderFrame` clamps the grid to at least 1×1 before snapping,
so the claim "no render is attempted on every render path" fails. -/
theorem preview_render_draws_when_grid_floor_zero :
    letI s : Settings :=
      { fontSize := 16, fontFamily := "Menlo", contrast := 1, brightness := 1,
        saturation := 1, gamma := 1, colorMode := .original,
        customColor := "#22d3ee", density := .standard, invert := false,
        backgroundColor := "#000000" }
    10 / s.fontSize = 0 ∧
      renderFrameDraw (fun _ _ => (0, 0, 0)) 10 10 s ≠ [] := by
  refine ⟨by norm_num, ?_⟩
  simp only [renderFrameDraw, drawAsciiFrame]
  norm_num [List.range_succ]

/-- C2 (amended): whenever `floor(width/cell) = 0` or
`floor(height/cell) = 0`, `drawAsciiFrame` issues no draw command and
`getAsciiString` returns the empty string; the preview path however
clamps the grid to at least one cell (see the counterexample). -/
theorem empty_grid_no_render (pixels : ℕ → ℕ → ℝ × ℝ × ℝ)
    (width height : ℕ) (s : Settings) (_hfs : 0 < s.fontSize)
    (h : width / s.fontSize = 0 ∨ height / s.fontSize = 0) :
    drawAsciiFrame pixels width height s = [] ∧
    getAsciiString pixels width height s = "" := by
  constructor
  · unfold drawAsciiFrame
    rw [if_pos h]
  · unfold getAsciiString
    rw [if_pos h]

/-- Witness for `empty_grid_no_render` on a 10×10 source with cell
size 16. -/
theorem empty_grid_no_render_witness :
    letI s : Settings :=
      { fontSize := 16, fontFamily := "Menlo", contrast := 1, brightness := 1,
        saturation := 1, gamma := 1, colorMode := .original,
        customColor := "#22d3ee", density := .standard, invert := false,
        backgroundColor := "#000000" }
    drawAsciiFrame (fun _ _ => (0, 0, 0)) 10 10 s = [] ∧
      getAsciiString (fun _ _ => (0, 0, 0)) 10 10 s = "" :=
  empty_grid_no_render _ 10 10 _ (by norm_num) (Or.inl (by norm_num))

/-- Output surface geometry of `startOfflineRender` (App.tsx lines
786-795): snap to the character grid, then force even dimensions by
subtracting `base % 2`. -/
def hqRenderDims (w h cell : ℕ) : ℕ × ℕ :=
  let cols := w / cell
  let rows := h / cell
  let baseWidth := cols * cell
  let baseHeight := rows * cell
  (baseWidth - baseWidth % 2, baseHeight - baseHeight % 2)

/-- C8: the HQ output surface always has even width and height, and
each dimension is the grid-snapped one decremented by 1 exactly when
the snapped value is odd. -/
theorem hq_even_dimensions (w h cell : ℕ) :
    Even (hqRenderDims w h cell).1 ∧ Even (hqRenderDims w h cell).2 ∧
    (hqRenderDims w h cell).1 =
      (if w / cell * cell % 2 = 1 then w / cell * cell - 1 else w / cell * cell) ∧
    (hqRenderDims w h cell).2 =
      (if h / cell * cell % 2 = 1 then h / cell * cell - 1 else h / cell * cell) := by
  simp only [hqRenderDims, Nat.even_iff]
  refine ⟨by omega, by omega, ?_, ?_⟩ <;> split_ifs <;> omega



/-- `totalFrames` of `startGifExport` (App.tsx lines 654-656):
`fps = 10`, `duration = Math.min(video.duration, 15)`,
`totalFrames = Math.floor(duration * fps)`. -/
def totalFramesGif (duration : ℚ) : ℕ := (⌊min duration 15 * 10⌋).toNat

/-- The sequence of values passed to `setRenderProgress` during a full
GIF export (App.tsx lines 644 and 718): an initial 0, then
`Math.round((i / totalFrames) * 100)` for `i = 0 .. totalFrames-1`
(JavaScript `Math.round` is `⌊x + 1/2⌋`, as is Lean `round`). -/
def gifProgressList (duration : ℚ) : List ℤ :=
  0 :: (List.range (totalFramesGif duration)).map fun i : ℕ =>
    round ((i : ℚ) / (totalFramesGif duration : ℚ) * 100)

/-- C3 counterexample: for a 1-second source the GIF job reports the
progress values 0,0,10,...,90 and never reports 100, so the progress
percentage is not "non-decreasing from 0 to 100": it never attains
100 (the overlay is cleared to null at the end instead). -/
theorem gif_progress_never_reaches_100 :
    gifProgressList 1 = [0, 0, 10, 20, 30, 40, 50, 60, 70, 80, 90] ∧
    (100 : ℤ) ∉ gifProgressList 1 := by
  have h10 : totalFramesGif 1 = 10 := by
    unfold totalFramesGif
    rw [min_eq_left (by norm_num : (1:ℚ) ≤ 15)]
    norm_num
    rfl
  have hlist : gifProgressList 1 = [0, 0, 10, 20, 30, 40, 50, 60, 70, 80, 90] := by
    rw [gifProgressList, h10]
    simp [List.range_succ, round_eq]
    norm_num
  refine ⟨hlist, ?_⟩
  rw [hlist]
  decide

/-- C3 (amended): the GIF exporter emits exactly one frame per loop
iteration, hence at most `floor(min(duration,15)*10)` frames, and the
reported progress starts at 0 and is monotonically non-decreasing,
staying within [0,99] — the value 100 is never reported. -/
theorem gif_frames_bound_and_progress_monotone (d : ℚ) (hd : 0 ≤ d) :
    (totalFramesGif d : ℤ) ≤ ⌊min d 15 * 10⌋ ∧
    (gifProgressList d).head? = some 0 ∧
    List.Chain' (· ≤ ·) (gifProgressList d) ∧
    ((gifProgressList d).all fun p => decide (0 ≤ p) && decide (p ≤ 99)) = true := by
  have hnn : (0 : ℚ) ≤ min d 15 * 10 :=
    mul_nonneg (le_min hd (by norm_num)) (by norm_num)
  have hfl0 : 0 ≤ ⌊min d 15 * 10⌋ := Int.floor_nonneg.mpr hnn
  have hfl150 : ⌊min d 15 * 10⌋ ≤ 150 := by
    have h15 : min d 15 * 10 ≤ 150 := by nlinarith [min_le_right d 15]
    calc ⌊min d 15 * 10⌋ ≤ ⌊(150 : ℚ)⌋ := Int.floor_le_floor h15
      _ = 150 := by norm_num
  have hn150 : totalFramesGif d ≤ 150 := by
    unfold totalFramesGif
    omega
  refine ⟨?_, rfl, ?_, ?_⟩
  · unfold totalFramesGif
    rw [Int.toNat_of_nonneg hfl0]
  · rcases Nat.eq_zero_or_pos (totalFramesGif d) with hn | hn
    · simp [gifProgressList, hn]
    · rw [gifProgressList, List.chain'_cons']
      obtain ⟨m, hm⟩ : ∃ m, totalFramesGif d = m + 1 := ⟨totalFramesGif d - 1, by omega⟩
      constructor
      · intro y hy
        rw [List.head?_map, hm, List.range_succ_eq_map, List.head?_cons,
          Option.map_some', Option.mem_def, Option.some.injEq] at hy
        subst hy
        simp
      · rw [List.chain'_map, hm, List.chain'_range_succ]
        intro k _hk
        rw [round_eq, round_eq]
        apply Int.floor_le_floor
        have hpos : (0 : ℚ) < ((m : ℚ) + 1) := by positivity
        have hstep : (k : ℚ) / ((m : ℚ) + 1) ≤ ((k : ℚ) + 1) / ((m : ℚ) + 1) := by
          gcongr
          linarith
        push_cast
        linarith
  · rw [List.all_eq_true]
    intro p hp
    simp only [gifProgressList, List.mem_cons, List.mem_map, List.mem_range] at hp
    rcases hp with rfl | ⟨i, hi, rfl⟩
    · decide
    · have hnpos : (0 : ℚ) < (totalFramesGif d : ℚ) := by
        have h := Nat.zero_lt_of_lt hi
        exact_mod_cast h
      have hi' : (i : ℚ) + 1 ≤ (totalFramesGif d : ℚ) := by
        have h : i + 1 ≤ totalFramesGif d := hi
        exact_mod_cast h
      have hn' : (totalFramesGif d : ℚ) ≤ 150 := by exact_mod_cast hn150
      have h0 : (0 : ℚ) ≤ (i : ℚ) / (totalFramesGif d : ℚ) * 100 := by positivity
      have hub : (i : ℚ) / (totalFramesGif d : ℚ) * 100 < 199 / 2 := by
        rw [div_mul_eq_mul_div, div_lt_iff₀ hnpos]
        nlinarith
      rw [Bool.and_eq_true, decide_eq_true_eq, decide_eq_true_eq]
      constructor
      · rw [round_eq]
        exact Int.floor_nonneg.mpr (by linarith)
      · rw [round_eq]
        have hlt : ⌊(i : ℚ) / (totalFramesGif d : ℚ) * 100 + 1 / 2⌋ < 100 := by
          apply Int.floor_lt.mpr
          push_cast
          linarith
        omega

/-- Witness for `gif_frames_bound_and_progress_monotone` at duration 1. -/
theorem gif_frames_bound_and_progress_monotone_witness :
    (0 : ℚ) ≤ 1 ∧
    ((totalFramesGif 1 : ℤ) ≤ ⌊min (1 : ℚ) 15 * 10⌋ ∧
      (gifProgressList 1).head? = some 0 ∧
      List.Chain' (· ≤ ·) (gifProgressList 1) ∧
      ((gifProgressList 1).all fun p => decide (0 ≤ p) && decide (p ≤ 99)) = true) :=
  ⟨by norm_num, gif_frames_bound_and_progress_monotone 1 (by norm_num)⟩

/-- `recordingState` values (App.tsx line 315). -/
inductive RecordingState where
  | idle
  | recording
  | processingHq
  | processingHqAudio
  | processingGif
deriving DecidableEq, Repr

/-- The player/UI state the export jobs read and mutate: the video
element position and muted flag, the React `isMuted`/`isPlaying`
flags, and the progress overlay state (App.tsx lines 313-319). -/
structure PlayerState where
  currentTime : ℚ
  muted : Bool
  isMuted : Bool
  isPlaying : Bool
  renderProgress : Option ℤ
  renderStatus : String
  recordingState : RecordingState
deriving DecidableEq, Repr

/-- The shared `finally` block of `startGifExport` (App.tsx lines
735-741) and `startOfflineRender` (lines 921-927): clear the progress
overlay and status, return to idle, set `video.currentTime = 0`, and
set `video.muted = isMuted` (the UI mute flag). -/
def exportCleanup (st : PlayerState) : PlayerState :=
  { st with renderProgress := none, renderStatus := "",
            recordingState := .idle, currentTime := 0, muted := st.isMuted }

/-- The mutations `startGifExport` performs before its loop (App.tsx
lines 640-645): stop playback, mute, switch to the GIF processing
state, show 0% progress. -/
def gifJobStart (st : PlayerState) : PlayerState :=
  { st with isPlaying := false, muted := true,
            recordingState := .processingGif, renderProgress := some 0,
            renderStatus := "RECORDING GIF..." }

/-- Player-visible effect of `k` completed iterations of the GIF loop
(App.tsx lines 688-720): the last iteration seeked to `(k-1)/fps`
(fps = 10) and reported `round(100*(k-1)/totalFrames)`.  `k = 0`
models an exception before the first iteration. -/
def gifLoopEffect (d : ℚ) (k : ℕ) (st : PlayerState) : PlayerState :=
  match k with
  | 0 => st
  | Nat.succ j =>
      { st with currentTime := (j : ℚ) / 10,
                renderProgress := some (round ((j : ℚ) / (totalFramesGif d : ℚ) * 100)) }

/-- `startGifExport` (App.tsx lines 631-742) as a state transformer:
start mutations, then `k` loop iterations (`k < totalFrames` models a
thrown exception, `k = totalFrames` a full run), then the `finally`
cleanup, which runs on every path. -/
def startGifExport (d : ℚ) (k : ℕ) (st : PlayerState) : PlayerState :=
  exportCleanup (gifLoopEffect d k (gifJobStart st))

/-- `totalFrames` of `startOfflineRender` (App.tsx lines 797-799):
`fps = 30`, `totalFrames = Math.floor(duration * fps)`. -/
def totalFramesHq (duration : ℚ) : ℕ := (⌊duration * 30⌋).toNat

/-- Mutations `startOfflineRender` performs before encoding (App.tsx
lines 762-767). -/
def hqJobStart (withAudio : Bool) (st : PlayerState) : PlayerState :=
  { st with isPlaying := false, muted := true,
            recordingState := if withAudio then .processingHqAudio else .processingHq,
            renderProgress := some 0, renderStatus := "INITIALIZING..." }

/-- Player-visible effect of `k` completed iterations of the HQ video
loop (App.tsx lines 877-901), in the style of `gifLoopEffect` with
fps = 30. -/
def hqLoopEffect (d : ℚ) (k : ℕ) (st : PlayerState) : PlayerState :=
  match k with
  | 0 => st
  | Nat.succ j =>
      { st with currentTime := (j : ℚ) / 30,
                renderProgress := some (round ((j : ℚ) / (totalFramesHq d : ℚ) * 100)) }

/-- Non-state outcome of an HQ export job. -/
structure HqOutcome where
  audioTrackAdded : Bool
  audioFailureLogged : Bool
  videoFramesEncoded : ℕ
  completed : Bool
deriving DecidableEq, Repr

/-- `startOfflineRender` (App.tsx lines 744-928) as a state
transformer plus job outcome.  `withAudio` is the argument, `hasUrl`
whether `source.url` is set, `decodeOk` whether `decodeAudioData`
succeeds.  Lines 770-782: audio is only extracted when requested and a
url exists, and a decode failure is caught, logged with
`console.warn`, and leaves `audioBuffer` null.  Lines 812-816: an
audio track is added to the container iff `audioBuffer` is non-null.
Lines 877-901: the video loop runs regardless; `k` is the number of
completed iterations (`k = totalFrames` is a full run).  Lines
921-927: the `finally` cleanup always runs. -/
def startOfflineRender (withAudio hasUrl decodeOk : Bool) (d : ℚ) (k : ℕ)
    (st : PlayerState) : PlayerState × HqOutcome :=
  let attempted := withAudio && hasUrl
  let audioBuffer := attempted && decodeOk
  (exportCleanup (hqLoopEffect d k (hqJobStart withAudio st)),
   { audioTrackAdded := audioBuffer,
     audioFailureLogged := attempted && !decodeOk,
     videoFramesEncoded := k,
     completed := decide (k = totalFramesHq d) })

/-- A pre-job state with a nonzero playback position: the video sits
at t = 7 s, unmuted with the UI flag in sync, idle. -/
def preJobState : PlayerState :=
  { currentTime := 7, muted := false, isMuted := false, isPlaying := true,
    renderProgress := none, renderStatus := "", recordingState := .idle }

/-- C1 counterexample: both export jobs end with `currentTime = 0`,
not the pre-job position 7 — the cleanup resets the playback position
instead of restoring it. -/
theorem cleanup_resets_position_counterexample :
    preJobState.currentTime = 7 ∧
    (startGifExport 1 10 preJobState).currentTime = 0 ∧
    (startGifExport 1 10 preJobState).currentTime ≠ preJobState.currentTime ∧
    (startOfflineRender true true true 1 30 preJobState).1.currentTime ≠
      preJobState.currentTime := by
  refine ⟨rfl, rfl, ?_, ?_⟩ <;>
    · show (0 : ℚ) ≠ 7
      norm_num

/-- C1 (amended): for every export job (GIF and HQ, with or without
audio), every duration, every number of completed loop iterations
(success or failure) and every pre-job state, the `finally` cleanup
clears the progress overlay and status, returns to idle, restores the
muted flag to the UI mute flag `isMuted` (its pre-job value, which for
a video source equals the pre-job muted state of the element), and
resets — not restores — the playback position to 0. -/
theorem export_cleanup_final_state (d : ℚ) (k : ℕ) (st : PlayerState)
    (withAudio hasUrl decodeOk : Bool) :
    (startGifExport d k st).renderProgress = none ∧
    (startGifExport d k st).renderStatus = "" ∧
    (startGifExport d k st).recordingState = .idle ∧
    (startGifExport d k st).currentTime = 0 ∧
    (startGifExport d k st).muted = st.isMuted ∧
    (startOfflineRender withAudio hasUrl decodeOk d k st).1.renderProgress = none ∧
    (startOfflineRender withAudio hasUrl decodeOk d k st).1.renderStatus = "" ∧
    (startOfflineRender withAudio hasUrl decodeOk d k st).1.recordingState = .idle ∧
    (startOfflineRender withAudio hasUrl decodeOk d k st).1.currentTime = 0 ∧
    (startOfflineRender withAudio hasUrl decodeOk d k st).1.muted = st.isMuted := by
  cases k <;>
    simp [startGifExport, startOfflineRender, exportCleanup, gifLoopEffect,
      hqLoopEffect, gifJobStart, hqJobStart]

/-- C7: when an HQ export is requested with audio and the audio decode
fails, the failure is logged, no audio track is added, the video loop
still encodes every frame, and the job completes (video-only
container) instead of aborting. -/
theorem hq_audio_decode_failure_video_only (d : ℚ) (st : PlayerState) :
    (startOfflineRender true true false d (totalFramesHq d) st).2 =
      { audioTrackAdded := false, audioFailureLogged := true,
        videoFramesEncoded := totalFramesHq d, completed := true } := by
  simp [startOfflineRender]

/-- Result of one seek request: whether `video.currentTime` was
assigned, and how long the caller waited before resuming (ms). -/
structure SeekOutcome where
  issuedSeek : Bool
  waitedMs : ℚ
deriving DecidableEq, Repr

/-- `seekTo` defined inside `startGifExport` (App.tsx lines 664-685):
if the position is already within 0.01 s of the target it resolves
immediately without assigning `currentTime`; otherwise it assigns
`currentTime` and resolves on the `seeked` event (`seekedDelay = some
dly`, arriving after `dly` ms) or on the 500 ms timeout, whichever is
first (`seekedDelay = none` models a stalled decode that never fires
the event). -/
def seekTo (current target : ℚ) (seekedDelay : Option ℚ) : SeekOutcome :=
  if |current - target| < 1 / 100 then ⟨false, 0⟩
  else
    match seekedDelay with
    | some dly => ⟨true, min dly 500⟩
    | none => ⟨true, 500⟩

/-- The inline wait of the HQ render loop (App.tsx lines 877-892): it
always assigns `video.currentTime = time` and then waits for `seeked`
or the 500 ms timeout — there is no already-at-target fast path and it
does not call the GIF exporter's `seekTo`. -/
def hqSeekWait (_current _target : ℚ) (seekedDelay : Option ℚ) : SeekOutcome :=
  match seekedDelay with
  | some dly => ⟨true, min dly 500⟩
  | none => ⟨true, 500⟩

/-- C9 counterexample: at a position already equal to the target, the
GIF exporter's `seekTo` resolves immediately with no seek, while the
HQ render loop's inline wait still issues the seek and waits the full
500 ms timeout when no `seeked` event fires — the two orchestrators do
not share one seek primitive. -/
theorem seek_primitive_not_shared_counterexample :
    seekTo 5 5 none = ⟨false, 0⟩ ∧
    hqSeekWait 5 5 none = ⟨true, 500⟩ ∧
    seekTo 5 5 none ≠ hqSeekWait 5 5 none := by
  have htol : |(5 : ℚ) - 5| < 1 / 100 := by
    rw [sub_self, abs_zero]
    norm_num
  have h1 : seekTo 5 5 none = ⟨false, 0⟩ := by
    unfold seekTo
    rw [if_pos htol]
  refine ⟨h1, rfl, ?_⟩
  rw [h1]
  intro hcontra
  have hfields := congrArg SeekOutcome.issuedSeek hcontra
  simp [hqSeekWait] at hfields

/-- C9 (amended): in the GIF exporter, `seekTo` waits at most 500 ms
and resolves immediately without issuing a seek when the position
already equals the target (within the 0.01 s tolerance); the HQ
renderer inlines its own wait with the same 500 ms bound but always
issues the seek — the primitive is duplicated, not shared. -/
theorem seek_bounded_wait_and_tolerance (c t : ℚ) (seekedDelay : Option ℚ) :
    (seekTo c t seekedDelay).waitedMs ≤ 500 ∧
    seekTo t t seekedDelay = ⟨false, 0⟩ ∧
    (hqSeekWait c t seekedDelay).issuedSeek = true ∧
    (hqSeekWait c t seekedDelay).waitedMs ≤ 500 := by
  have htol : |t - t| < 1 / 100 := by
    rw [sub_self, abs_zero]
    norm_num
  refine ⟨?_, ?_, ?_, ?_⟩
  · unfold seekTo
    split_ifs
    · show (0 : ℚ) ≤ 500
      norm_num
    · cases seekedDelay with
      | none =>
          show (500 : ℚ) ≤ 500
          norm_num
      | some dly => exact min_le_right _ _
  · unfold seekTo
    rw [if_pos htol]
  · unfold hqSeekWait
    cases seekedDelay <;> rfl
  · unfold hqSeekWait
    cases seekedDelay with
    | none =>
        show (500 : ℚ) ≤ 500
        norm_num
    | some dly => exact min_le_right _ _

/-- Source kinds (App.tsx lines 304-308). -/
inductive SourceType where
  | video
  | image
  | webcam
deriving DecidableEq, Repr

/-- The mixed stream handed to the `MediaRecorder`. -/
structure MixedStream where
  videoTracks : ℕ
  audioTracks : ℕ
deriving DecidableEq, Repr

/-- `startLiveRecording` stream assembly (App.tsx lines 931-946): the
canvas capture stream contributes the video track; audio tracks are
cloned in only for a video source whose element supports
`captureStream`, or a webcam source with a stream, and in both cases
only when `!isMuted`. -/
def startLiveRecording (srcType : SourceType) (canCapture hasStream : Bool)
    (srcAudioTracks : ℕ) (isMuted : Bool) : MixedStream :=
  { videoTracks := 1,
    audioTracks :=
      if srcType = .video ∧ canCapture ∧ isMuted = false then srcAudioTracks
      else if srcType = .webcam ∧ hasStream ∧ isMuted = false then srcAudioTracks
      else 0 }

/-- C10: a live recording started while the UI mute flag is set gets
no audio tracks — the mixed stream is video-only regardless of the
source kind and however many audio tracks the source carries; audio is
cloned in only when the recorder starts unmuted. -/
theorem live_record_muted_video_only (srcType : SourceType)
    (canCapture hasStream : Bool) (srcAudioTracks : ℕ) :
    (startLiveRecording srcType canCapture hasStream srcAudioTracks true).audioTracks
        = 0 ∧
    (startLiveRecording srcType canCapture hasStream srcAudioTracks true).videoTracks
        = 1 := by
  cases srcType <;> simp [startLiveRecording]
